import Mathlib

/-!
Shallow embedding of the inbound message relay implemented by the Signal
trigger node (src/nodes/Signal/SignalTrigger.node.ts).  The embedding keeps
the source names where possible: the dedup window `processedMessages` is a
`Finset Nat` threaded through the handler, `maxMessages` is its capacity,
`markMessageAsRead` builds and issues the read-receipt request, and the
`ws.on('message')` handler body becomes `onMessage`, which returns the new
window together with the ordered list of externally visible actions
(downstream emits, acknowledgement HTTP calls, warn/error log lines).
Debug-level log lines are not modelled; they have no externally visible
effect.  The reconnect logic of `connectWebSocket` and the `closeFunction`
is modelled as a step function on a connection state that records the
scheduled reconnect due-times.
-/

namespace Signal

/-- Capacity of the dedup window, `maxMessages` in the source (line 87). -/
def maxMessages : Nat := 1000

/-- One dedup-window update, lines 135-143 of the source: a timestamp already
in `processedMessages` is rejected (early return, window untouched);
otherwise, if the window has reached `maxMessages` entries it is cleared
before the new timestamp is added.  Returns (accepted, new window). -/
def dedupStep (w : Finset Nat) (t : Nat) : Bool × Finset Nat :=
  if t ∈ w then (false, w)
  else if maxMessages ≤ w.card then (true, {t})
  else (true, insert t w)

/-- Fold `dedupStep` over a sequence of frame timestamps. -/
def runDedup (w : Finset Nat) (ts : List Nat) : Finset Nat :=
  ts.foldl (fun w t => (dedupStep w t).2) w

/-- Payload fields the handler reads from a `dataMessage` object; absent
JSON fields are `none`. -/
structure DataMessage where
  message : Option String
  attachments : Option (List String)
  reactions : Option (List String)
deriving DecidableEq, Repr

/-- The empty object used as the fallback payload on line 145. -/
def DataMessage.emptyObj : DataMessage := ⟨none, none, none⟩

/-- The `sentMessage` object inside a sync envelope: the same payload fields
plus the `destinationUuid` compared on line 164. -/
structure SentMessage where
  destinationUuid : Option String
  message : Option String
  attachments : Option (List String)
  reactions : Option (List String)
deriving DecidableEq, Repr

/-- Payload view of a `sentMessage`. -/
def SentMessage.toDataMessage (s : SentMessage) : DataMessage :=
  ⟨s.message, s.attachments, s.reactions⟩

/-- The `syncMessage` wrapper; its `sentMessage` may be absent. -/
structure SyncMessage where
  sentMessage : Option SentMessage
deriving DecidableEq, Repr

/-- Envelope fields the handler reads (lines 135-196); every field may be
absent in the incoming JSON. -/
structure Envelope where
  timestamp : Option Nat
  sourceNumber : Option String
  sourceUuid : Option String
  sourceName : Option String
  serverReceivedTimestamp : Option Nat
  serverDeliveredTimestamp : Option Nat
  hasContent : Option Bool
  isUnidentifiedSender : Option Bool
  dataMessage : Option DataMessage
  syncMessage : Option SyncMessage
deriving DecidableEq, Repr

/-- A successfully parsed frame: the envelope (possibly absent) and the
top-level `account` field. -/
structure Frame where
  envelope : Option Envelope
  account : Option String
deriving DecidableEq, Repr

/-- Line 135: `message.envelope?.timestamp || 0` (an absent timestamp, and a
literal 0, both yield 0). -/
def frameTimestamp (f : Frame) : Nat :=
  ((f.envelope).bind (fun e => e.timestamp)).getD 0

/-- Line 148: `!!message.envelope?.dataMessage`. -/
def hasDataMessage (f : Frame) : Bool :=
  ((f.envelope).bind (fun e => e.dataMessage)).isSome

/-- Line 149: `!!message.envelope?.syncMessage`. -/
def hasSyncMessage (f : Frame) : Bool :=
  ((f.envelope).bind (fun e => e.syncMessage)).isSome

/-- Line 161: `message.envelope.sourceUuid` as read in the sync branch. -/
def syncSourceUuid (f : Frame) : Option String :=
  (f.envelope).bind (fun e => e.sourceUuid)

/-- Line 162: `sentMessage?.destinationUuid`. -/
def syncDestinationUuid (f : Frame) : Option String :=
  (((f.envelope).bind (fun e => e.syncMessage)).bind
    (fun s => s.sentMessage)).bind (fun s => s.destinationUuid)

/-- Line 145: `message.envelope?.dataMessage ||
message.envelope?.syncMessage?.sentMessage || \x7b\x7d`. -/
def selectedPayload (f : Frame) : DataMessage :=
  match f.envelope with
  | none => DataMessage.emptyObj
  | some env =>
    match env.dataMessage with
    | some d => d
    | none =>
      match env.syncMessage.bind (fun s => s.sentMessage) with
      | some s => s.toDataMessage
      | none => DataMessage.emptyObj

/-- Classification outcome, the `messageType` strings of lines 152-175. -/
inductive MessageType
  | incoming
  | self_note
  | outgoing
  | unknown
deriving DecidableEq, Repr

/-- Lines 148-175: pick a message type and whether the frame is processed
further.  JavaScript strict equality on two possibly-undefined uuids is
`Option String` equality (undefined equals undefined). -/
def classify (f : Frame) : MessageType × Bool :=
  if hasDataMessage f then (MessageType.incoming, true)
  else if hasSyncMessage f then
    if syncSourceUuid f = syncDestinationUuid f then (MessageType.self_note, true)
    else (MessageType.outgoing, false)
  else (MessageType.unknown, false)

/-- The normalized event built on lines 182-197; missing fields default to
empty string / empty list / 0 / false.  The raw envelope pass-through field
is kept as the optional envelope itself. -/
structure ProcessedMessage where
  messageText : String
  attachments : List String
  reactions : List String
  sourceNumber : String
  sourceUuid : String
  sourceName : String
  timestamp : Nat
  serverReceivedTimestamp : Nat
  serverDeliveredTimestamp : Nat
  account : String
  hasContent : Bool
  isUnidentifiedSender : Bool
  messageType : MessageType
  envelope : Option Envelope
deriving DecidableEq, Repr

/-- Lines 182-197 applied to a frame and the chosen message type. -/
def buildProcessedMessage (f : Frame) (mt : MessageType) : ProcessedMessage :=
  let d := selectedPayload f
  { messageText := d.message.getD ""
    attachments := d.attachments.getD []
    reactions := d.reactions.getD []
    sourceNumber := ((f.envelope).bind (fun e => e.sourceNumber)).getD ""
    sourceUuid := ((f.envelope).bind (fun e => e.sourceUuid)).getD ""
    sourceName := ((f.envelope).bind (fun e => e.sourceName)).getD ""
    timestamp := frameTimestamp f
    serverReceivedTimestamp :=
      ((f.envelope).bind (fun e => e.serverReceivedTimestamp)).getD 0
    serverDeliveredTimestamp :=
      ((f.envelope).bind (fun e => e.serverDeliveredTimestamp)).getD 0
    account := f.account.getD ""
    hasContent := ((f.envelope).bind (fun e => e.hasContent)).getD false
    isUnidentifiedSender :=
      ((f.envelope).bind (fun e => e.isUnidentifiedSender)).getD false
    messageType := mt
    envelope := f.envelope }

/-- Node parameters and credentials read on lines 74-82; an unset api token
is the empty string (JavaScript falsiness of the credential). -/
structure TriggerConfig where
  apiUrl : String
  apiToken : String
  phoneNumber : String
  ignoreMessages : Bool
  ignoreAttachments : Bool
  ignoreReactions : Bool
  markAsRead : Bool
deriving DecidableEq, Repr

/-- Lines 202-204: the content-emptiness check. -/
def isEmptyMessage (pm : ProcessedMessage) : Bool :=
  pm.messageText == "" && pm.attachments.length == 0 && pm.reactions.length == 0

/-- Lines 210-212: the filter check. -/
def filteredOut (cfg : TriggerConfig) (pm : ProcessedMessage) : Bool :=
  (cfg.ignoreMessages && pm.messageText != "") ||
  (cfg.ignoreAttachments && decide (0 < pm.attachments.length)) ||
  (cfg.ignoreReactions && decide (0 < pm.reactions.length))

/-- JSON scalar values appearing in the read-receipt body. -/
inductive Jval
  | str (s : String)
  | num (n : Nat)
deriving DecidableEq, Repr

/-- An outgoing HTTP POST as the handler assembles it: target url, header
list, and the structured JSON body as ordered key/value pairs. -/
structure HttpRequest where
  url : String
  headers : List (String × String)
  body : List (String × Jval)
deriving DecidableEq, Repr

/-- Lines 92-107: url, body and headers of the read-receipt POST.  The
Authorization header is attached only when the api token is set. -/
def readReceiptRequest (cfg : TriggerConfig) (sourceUuid : String)
    (timestamp : Nat) : HttpRequest :=
  { url := cfg.apiUrl ++ "/v1/receipts/" ++ cfg.phoneNumber
    headers :=
      [("Content-Type", "application/json")] ++
        (if cfg.apiToken != "" then
          [("Authorization", "Bearer " ++ cfg.apiToken)]
        else [])
    body :=
      [("receipt_type", Jval.str "read"),
       ("recipient", Jval.str sourceUuid),
       ("timestamp", Jval.num timestamp)] }

/-- Acknowledgement body exactly as the spec writes it in section 6, for
comparison with the body the source builds.  (Refinement reference only.) -/
def specClaimedReceiptBody (recipient : String) (timestamp : Nat) :
    List (String × Jval) :=
  [("receiptType", Jval.str "read"),
   ("recipient", Jval.str recipient),
   ("timestamp", Jval.num timestamp)]

/-- Severity of a modelled log line. -/
inductive LogLevel
  | debug
  | warn
  | error
deriving DecidableEq, Repr

/-- Externally visible actions of one handler invocation, in program order:
a downstream emit (line 220), an acknowledgement HTTP call (line 101), or a
warn/error log line. -/
inductive Action
  | emit (pm : ProcessedMessage)
  | sendAck (req : HttpRequest)
  | log (lvl : LogLevel)
deriving DecidableEq, Repr

/-- Outcome of the awaited fetch inside `markMessageAsRead`: success,
non-success HTTP status, or a rejected promise. -/
inductive AckOutcome
  | ok
  | httpError
  | thrown
deriving DecidableEq, Repr

/-- The try-block of `markMessageAsRead` (lines 91-115): it always issues
the POST; a non-success status adds a warn log (line 114); a rejection
aborts the block (second component true). -/
def markMessageAsReadTry (cfg : TriggerConfig) (sourceUuid : String)
    (timestamp : Nat) (outcome : AckOutcome) : List Action × Bool :=
  let req := readReceiptRequest cfg sourceUuid timestamp
  match outcome with
  | AckOutcome.ok => ([Action.sendAck req], false)
  | AckOutcome.httpError => ([Action.sendAck req, Action.log LogLevel.warn], false)
  | AckOutcome.thrown => ([Action.sendAck req], true)

/-- Lines 90-119: the whole `markMessageAsRead`, whose catch-block (lines
116-118) turns a rejection into an error log, so the function itself never
rejects.  The `sourceNumber` argument is accepted but unused, as in the
source. -/
def markMessageAsRead (cfg : TriggerConfig) (sourceNumber sourceUuid : String)
    (timestamp : Nat) (outcome : AckOutcome) : List Action :=
  let r := markMessageAsReadTry cfg sourceUuid timestamp outcome
  if r.2 then r.1 ++ [Action.log LogLevel.error] else r.1

/-- Lines 145-230: everything the handler does after the dedup check
accepted the frame — classification, event build, emptiness and filter
checks, emit, and the optional read-receipt call. -/
def handlerActions (cfg : TriggerConfig) (m : Frame) (a : AckOutcome) :
    List Action :=
  if (classify m).2 then
    let pm := buildProcessedMessage m (classify m).1
    if isEmptyMessage pm then []
    else if filteredOut cfg pm then []
    else
      Action.emit pm ::
        (if cfg.markAsRead && ((classify m).1 == MessageType.incoming) then
          markMessageAsRead cfg pm.sourceNumber pm.sourceUuid pm.timestamp a
        else [])
  else []

/-- Lines 133-230: the body of the try-block on a parsed frame; the dedup
early-return (lines 136-139) leaves the window untouched and does nothing
else. -/
def processParsed (cfg : TriggerConfig) (w : Finset Nat) (m : Frame)
    (a : AckOutcome) : Finset Nat × List Action :=
  match dedupStep w (frameTimestamp m) with
  | (false, _) => (w, [])
  | (true, w1) => (w1, handlerActions cfg m a)

/-- Line 132: `JSON.parse` either yields a frame or throws. -/
def parseFrame (raw : Option Frame) : Except Unit Frame :=
  match raw with
  | some m => Except.ok m
  | none => Except.error ()

/-- Lines 130-234: one invocation of the `ws.on('message')` handler.  The
catch-block (lines 231-233) turns a parse failure into a single error log;
the window is untouched and nothing is emitted. -/
def onMessage (cfg : TriggerConfig) (w : Finset Nat) (raw : Option Frame)
    (a : AckOutcome) : Finset Nat × List Action :=
  match parseFrame raw with
  | Except.ok m => processParsed cfg w m a
  | Except.error _ => (w, [Action.log LogLevel.error])

/-- Socket lifecycle events: the close event, the error event, and the
invocation of the `closeFunction` returned by `trigger`. -/
inductive WsEvent
  | close
  | error
  | stop
deriving DecidableEq, Repr

/-- Connection state: due-times of every reconnect scheduled so far, plus a
ghost flag recording that the closeFunction ran (the source itself keeps no
such flag). -/
structure ConnState where
  scheduledReconnects : List Nat
  stopRequested : Bool
deriving DecidableEq, Repr

/-- Fresh connection state. -/
def initialConnState : ConnState := ⟨[], false⟩

/-- Reconnect handling from the source: the close handler (lines 241-244)
and the error handler (lines 236-239) each schedule exactly one reconnect
at now + reconnectDelay via setTimeout; the closeFunction (lines 255-258)
only calls `ws.close()` — it sets no flag and cancels no timer, so nothing
suppresses the reconnect scheduled by the close event that follows. -/
def wsStep (reconnectDelay : Nat) (s : ConnState) (e : Nat × WsEvent) :
    ConnState :=
  match e.2 with
  | WsEvent.close =>
      { s with scheduledReconnects := s.scheduledReconnects ++ [e.1 + reconnectDelay] }
  | WsEvent.error =>
      { s with scheduledReconnects := s.scheduledReconnects ++ [e.1 + reconnectDelay] }
  | WsEvent.stop => { s with stopRequested := true }

/-- Run a timed event trace from the fresh state. -/
def runWs (reconnectDelay : Nat) (tr : List (Nat × WsEvent)) : ConnState :=
  tr.foldl (wsStep reconnectDelay) initialConnState

/-- Line 78: the reconnect delay parameter is given in seconds and scaled
to milliseconds. -/
def reconnectDelayMs (seconds : Nat) : Nat := seconds * 1000

/-- Concrete configuration used to evaluate the handler on sample frames. -/
def exampleCfg : TriggerConfig :=
  { apiUrl := "http://localhost:8080"
    apiToken := "tok"
    phoneNumber := "+15550001111"
    ignoreMessages := false
    ignoreAttachments := false
    ignoreReactions := false
    markAsRead := true }

/-- A direct inbound frame: dataMessage with text, timestamp 100. -/
def exampleIncomingFrame : Frame :=
  { envelope := some
      { timestamp := some 100
        sourceNumber := some "+15550002222"
        sourceUuid := some "u-1"
        sourceName := some "Alice"
        serverReceivedTimestamp := some 101
        serverDeliveredTimestamp := some 102
        hasContent := some true
        isUnidentifiedSender := some false
        dataMessage := some { message := some "hi", attachments := none, reactions := none }
        syncMessage := none }
    account := some "+15550001111" }

/-- A sync frame echoing a message sent to someone else: sourceUuid and
destinationUuid differ, so the handler classifies it as outgoing. -/
def exampleOutgoingFrame : Frame :=
  { envelope := some
      { timestamp := some 100
        sourceNumber := some "+15550001111"
        sourceUuid := some "u-1"
        sourceName := some "Me"
        serverReceivedTimestamp := none
        serverDeliveredTimestamp := none
        hasContent := some true
        isUnidentifiedSender := some false
        dataMessage := none
        syncMessage := some
          { sentMessage := some
              { destinationUuid := some "u-2"
                message := some "hi"
                attachments := none
                reactions := none } } }
    account := some "+15550001111" }

/-- A sync frame echoing a note to self: sourceUuid equals the embedded
destinationUuid. -/
def exampleSelfNoteFrame : Frame :=
  { envelope := some
      { timestamp := some 200
        sourceNumber := some "+15550001111"
        sourceUuid := some "u-1"
        sourceName := some "Me"
        serverReceivedTimestamp := none
        serverDeliveredTimestamp := none
        hasContent := some true
        isUnidentifiedSender := some false
        dataMessage := none
        syncMessage := some
          { sentMessage := some
              { destinationUuid := some "u-1"
                message := some "note"
                attachments := none
                reactions := none } } }
    account := some "+15550001111" }

/-- A sync frame in which both the envelope sourceUuid and the sentMessage
destinationUuid are absent. -/
def exampleNoUuidSyncFrame : Frame :=
  { envelope := some
      { timestamp := some 300
        sourceNumber := none
        sourceUuid := none
        sourceName := none
        serverReceivedTimestamp := none
        serverDeliveredTimestamp := none
        hasContent := none
        isUnidentifiedSender := none
        dataMessage := none
        syncMessage := some
          { sentMessage := some
              { destinationUuid := none
                message := some "x"
                attachments := none
                reactions := none } } }
    account := none }

/-- A seen timestamp leaves the window untouched and is rejected. -/
theorem dedupStep_mem (w : Finset Nat) (t : Nat) (h : t ∈ w) :
    dedupStep w t = (false, w) := by
  simp [dedupStep, h]

/-- An unseen timestamp is accepted; the window is cleared first when at
capacity. -/
theorem dedupStep_not_mem (w : Finset Nat) (t : Nat) (h : t ∉ w) :
    dedupStep w t =
      (true, if maxMessages ≤ w.card then {t} else insert t w) := by
  by_cases hc : maxMessages ≤ w.card <;> simp [dedupStep, h, hc]

/-- After a dedup step the stepped timestamp is always in the window. -/
theorem mem_dedupStep_snd (w : Finset Nat) (t : Nat) : t ∈ (dedupStep w t).2 := by
  by_cases h : t ∈ w
  · simp [dedupStep, h]
  · by_cases hc : maxMessages ≤ w.card <;> simp [dedupStep, h, hc]

/-- The window produced by the handler is exactly the dedup-step window. -/
theorem processParsed_fst (cfg : TriggerConfig) (w : Finset Nat) (m : Frame)
    (a : AckOutcome) :
    (processParsed cfg w m a).1 = (dedupStep w (frameTimestamp m)).2 := by
  by_cases h : frameTimestamp m ∈ w
  · simp [processParsed, dedupStep_mem _ _ h]
  · simp [processParsed, dedupStep_not_mem _ _ h]

/-- Actions of the handler: nothing for a duplicate, the post-dedup actions
otherwise. -/
theorem processParsed_snd (cfg : TriggerConfig) (w : Finset Nat) (m : Frame)
    (a : AckOutcome) :
    (processParsed cfg w m a).2 =
      if frameTimestamp m ∈ w then [] else handlerActions cfg m a := by
  by_cases h : frameTimestamp m ∈ w
  · simp [processParsed, dedupStep_mem _ _ h, h]
  · simp [processParsed, dedupStep_not_mem _ _ h, h]

/-- A duplicate frame does nothing at all. -/
theorem processParsed_dup (cfg : TriggerConfig) (w : Finset Nat) (m : Frame)
    (a : AckOutcome) (h : frameTimestamp m ∈ w) :
    processParsed cfg w m a = (w, []) := by
  simp [processParsed, dedupStep_mem _ _ h]

/-- A frame classified as not-to-process produces no actions. -/
theorem handlerActions_not_processed (cfg : TriggerConfig) (m : Frame)
    (a : AckOutcome) (h : (classify m).2 = false) :
    handlerActions cfg m a = [] := by
  simp [handlerActions, h]

/-- An all-empty event produces no actions. -/
theorem handlerActions_empty (cfg : TriggerConfig) (m : Frame) (a : AckOutcome)
    (hsp : (classify m).2 = true)
    (he : isEmptyMessage (buildProcessedMessage m (classify m).1) = true) :
    handlerActions cfg m a = [] := by
  simp [handlerActions, hsp, he]

/-- A filtered-out event produces no actions. -/
theorem handlerActions_filtered (cfg : TriggerConfig) (m : Frame) (a : AckOutcome)
    (hsp : (classify m).2 = true)
    (he : isEmptyMessage (buildProcessedMessage m (classify m).1) = false)
    (hf : filteredOut cfg (buildProcessedMessage m (classify m).1) = true) :
    handlerActions cfg m a = [] := by
  simp [handlerActions, hsp, he, hf]

/-- A deliverable event is emitted first, followed by the optional
read-receipt call. -/
theorem handlerActions_deliver (cfg : TriggerConfig) (m : Frame) (a : AckOutcome)
    (hsp : (classify m).2 = true)
    (he : isEmptyMessage (buildProcessedMessage m (classify m).1) = false)
    (hf : filteredOut cfg (buildProcessedMessage m (classify m).1) = false) :
    handlerActions cfg m a =
      Action.emit (buildProcessedMessage m (classify m).1) ::
        (if cfg.markAsRead && ((classify m).1 == MessageType.incoming) then
          markMessageAsRead cfg
            (buildProcessedMessage m (classify m).1).sourceNumber
            (buildProcessedMessage m (classify m).1).sourceUuid
            (buildProcessedMessage m (classify m).1).timestamp a
        else []) := by
  simp [handlerActions, hsp, he, hf]

/-- The read-receipt helper never emits downstream events. -/
theorem emit_not_mem_markMessageAsRead (cfg : TriggerConfig) (sn su : String)
    (ts : Nat) (o : AckOutcome) (pm : ProcessedMessage) :
    Action.emit pm ∉ markMessageAsRead cfg sn su ts o := by
  cases o <;> simp [markMessageAsRead, markMessageAsReadTry]

/-- Any ack call the read-receipt helper issues carries exactly the request
built by readReceiptRequest. -/
theorem sendAck_mem_markMessageAsRead (cfg : TriggerConfig) (sn su : String)
    (ts : Nat) (o : AckOutcome) (req : HttpRequest)
    (h : Action.sendAck req ∈ markMessageAsRead cfg sn su ts o) :
    req = readReceiptRequest cfg su ts := by
  cases o <;> simpa [markMessageAsRead, markMessageAsReadTry] using h

/-- Characterisation of downstream delivery at the post-dedup stage. -/
theorem emit_mem_handlerActions (cfg : TriggerConfig) (m : Frame)
    (a : AckOutcome) (pm : ProcessedMessage) :
    Action.emit pm ∈ handlerActions cfg m a ↔
      ((classify m).2 = true ∧ pm = buildProcessedMessage m (classify m).1 ∧
       isEmptyMessage pm = false ∧ filteredOut cfg pm = false) := by
  constructor
  · intro h
    cases hsp : (classify m).2 with
    | false =>
      rw [handlerActions_not_processed cfg m a hsp] at h
      exact absurd h (List.not_mem_nil _)
    | true =>
      cases he : isEmptyMessage (buildProcessedMessage m (classify m).1) with
      | true =>
        rw [handlerActions_empty cfg m a hsp he] at h
        exact absurd h (List.not_mem_nil _)
      | false =>
        cases hf : filteredOut cfg (buildProcessedMessage m (classify m).1) with
        | true =>
          rw [handlerActions_filtered cfg m a hsp he hf] at h
          exact absurd h (List.not_mem_nil _)
        | false =>
          rw [handlerActions_deliver cfg m a hsp he hf] at h
          rcases List.mem_cons.mp h with h | h
          · have hpm : pm = buildProcessedMessage m (classify m).1 := by
              injection h
            exact ⟨rfl, hpm, by rw [hpm]; exact he, by rw [hpm]; exact hf⟩
          · exfalso
            by_cases hm :
                (cfg.markAsRead && ((classify m).1 == MessageType.incoming)) = true
            · rw [if_pos hm] at h
              exact emit_not_mem_markMessageAsRead cfg _ _ _ a pm h
            · rw [if_neg hm] at h
              exact List.not_mem_nil _ h
  · rintro ⟨hsp, rfl, he, hf⟩
    rw [handlerActions_deliver cfg m a hsp he hf]
    exact List.mem_cons_self _ _

/-- Characterisation of downstream delivery for a whole handler invocation
on a parseable frame. -/
theorem emit_mem_onMessage (cfg : TriggerConfig) (w : Finset Nat) (m : Frame)
    (a : AckOutcome) (pm : ProcessedMessage) :
    Action.emit pm ∈ (onMessage cfg w (some m) a).2 ↔
      (frameTimestamp m ∉ w ∧ (classify m).2 = true ∧
       pm = buildProcessedMessage m (classify m).1 ∧
       isEmptyMessage pm = false ∧ filteredOut cfg pm = false) := by
  show Action.emit pm ∈ (processParsed cfg w m a).2 ↔ _
  rw [processParsed_snd]
  by_cases hd : frameTimestamp m ∈ w
  · simp [hd]
  · rw [if_neg hd, emit_mem_handlerActions]
    constructor
    · rintro ⟨h1, h2, h3, h4⟩
      exact ⟨hd, h1, h2, h3, h4⟩
    · rintro ⟨_, h1, h2, h3, h4⟩
      exact ⟨h1, h2, h3, h4⟩

/-- If the handler issues an ack at all, the action list starts with the
downstream emit. -/
theorem handlerActions_sendAck_shape (cfg : TriggerConfig) (m : Frame)
    (a : AckOutcome) (req : HttpRequest)
    (h : Action.sendAck req ∈ handlerActions cfg m a) :
    ∃ pm rest, handlerActions cfg m a = Action.emit pm :: rest := by
  cases hsp : (classify m).2 with
  | false =>
    rw [handlerActions_not_processed cfg m a hsp] at h
    exact absurd h (List.not_mem_nil _)
  | true =>
    cases he : isEmptyMessage (buildProcessedMessage m (classify m).1) with
    | true =>
      rw [handlerActions_empty cfg m a hsp he] at h
      exact absurd h (List.not_mem_nil _)
    | false =>
      cases hf : filteredOut cfg (buildProcessedMessage m (classify m).1) with
      | true =>
        rw [handlerActions_filtered cfg m a hsp he hf] at h
        exact absurd h (List.not_mem_nil _)
      | false =>
        exact ⟨_, _, handlerActions_deliver cfg m a hsp he hf⟩

/-- Any ack the post-dedup stage issues is the request built from the
normalized event of the frame. -/
theorem sendAck_mem_handlerActions (cfg : TriggerConfig) (m : Frame)
    (a : AckOutcome) (req : HttpRequest)
    (h : Action.sendAck req ∈ handlerActions cfg m a) :
    req = readReceiptRequest cfg
      (buildProcessedMessage m (classify m).1).sourceUuid
      (buildProcessedMessage m (classify m).1).timestamp := by
  cases hsp : (classify m).2 with
  | false =>
    rw [handlerActions_not_processed cfg m a hsp] at h
    exact absurd h (List.not_mem_nil _)
  | true =>
    cases he : isEmptyMessage (buildProcessedMessage m (classify m).1) with
    | true =>
      rw [handlerActions_empty cfg m a hsp he] at h
      exact absurd h (List.not_mem_nil _)
    | false =>
      cases hf : filteredOut cfg (buildProcessedMessage m (classify m).1) with
      | true =>
        rw [handlerActions_filtered cfg m a hsp he hf] at h
        exact absurd h (List.not_mem_nil _)
      | false =>
        rw [handlerActions_deliver cfg m a hsp he hf] at h
        rcases List.mem_cons.mp h with h | h
        · exact absurd h (by simp)
        · by_cases hm :
              (cfg.markAsRead && ((classify m).1 == MessageType.incoming)) = true
          · rw [if_pos hm] at h
            exact sendAck_mem_markMessageAsRead cfg _ _ _ a req h
          · rw [if_neg hm] at h
            exact absurd h (List.not_mem_nil _)

/-- Unfolding lemmas for classify in each branch. -/
theorem classify_incoming (m : Frame) (hd : hasDataMessage m = true) :
    classify m = (MessageType.incoming, true) := by
  simp [classify, hd]

/-- Classification of a sync frame with matching uuids. -/
theorem classify_self_note (m : Frame) (hd : hasDataMessage m = false)
    (hs : hasSyncMessage m = true)
    (hu : syncSourceUuid m = syncDestinationUuid m) :
    classify m = (MessageType.self_note, true) := by
  simp [classify, hd, hs, hu]

/-- Classification of a sync frame with differing uuids. -/
theorem classify_outgoing (m : Frame) (hd : hasDataMessage m = false)
    (hs : hasSyncMessage m = true)
    (hu : syncSourceUuid m ≠ syncDestinationUuid m) :
    classify m = (MessageType.outgoing, false) := by
  simp [classify, hd, hs, hu]

/-- Classification of a frame with neither payload. -/
theorem classify_unknown (m : Frame) (hd : hasDataMessage m = false)
    (hs : hasSyncMessage m = false) :
    classify m = (MessageType.unknown, false) := by
  simp [classify, hd, hs]

/-- A frame that is not to be processed yields no downstream emit. -/
theorem no_emit_of_not_processed (cfg : TriggerConfig) (w : Finset Nat)
    (m : Frame) (a : AckOutcome) (pm : ProcessedMessage)
    (h : (classify m).2 = false) :
    Action.emit pm ∉ (onMessage cfg w (some m) a).2 := by
  rw [emit_mem_onMessage]
  rintro ⟨_, h2, _, _, _⟩
  rw [h] at h2
  exact Bool.false_ne_true h2

/-- Unfolding lemmas for runDedup. -/
theorem runDedup_nil (w : Finset Nat) : runDedup w [] = w := rfl

/-- Unfolding runDedup on a cons. -/
theorem runDedup_cons (w : Finset Nat) (t : Nat) (ts : List Nat) :
    runDedup w (t :: ts) = runDedup (dedupStep w t).2 ts := rfl

/-- Unfolding runDedup on an append. -/
theorem runDedup_append (w : Finset Nat) (l1 l2 : List Nat) :
    runDedup w (l1 ++ l2) = runDedup (runDedup w l1) l2 := by
  simp [runDedup, List.foldl_append]

/-- While the window stays within capacity, feeding fresh distinct
timestamps simply accumulates them. -/
theorem runDedup_union_of_nodup (l : List Nat) :
    ∀ w : Finset Nat, l.Nodup → (∀ x ∈ l, x ∉ w) →
      w.card + l.length ≤ maxMessages → runDedup w l = w ∪ l.toFinset := by
  induction l with
  | nil =>
    intro w _ _ _
    simp [runDedup]
  | cons t rest ih =>
    intro w hnd hdis hlen
    have ht : t ∉ w := hdis t (List.mem_cons_self t rest)
    have hcap : ¬ maxMessages ≤ w.card := by
      simp only [List.length_cons] at hlen
      omega
    have hstep : (dedupStep w t).2 = insert t w := by
      rw [dedupStep_not_mem w t ht]
      simp [hcap]
    rw [runDedup_cons, hstep,
      ih (insert t w) hnd.of_cons ?hdis ?hlen]
    · rw [List.toFinset_cons]
      simp [Finset.insert_union, Finset.union_insert]
    case hdis =>
      intro x hx
      simp only [Finset.mem_insert, not_or]
      exact ⟨fun hxt => (List.nodup_cons.mp hnd).1 (hxt ▸ hx),
        hdis x (List.mem_cons_of_mem t hx)⟩
    case hlen =>
      rw [Finset.card_insert_of_not_mem ht]
      simp only [List.length_cons] at hlen
      omega

/-- Feeding at most maxMessages distinct timestamps into an empty window
yields exactly their set. -/
theorem runDedup_empty_toFinset (l : List Nat) (hnd : l.Nodup)
    (hlen : l.length ≤ maxMessages) : runDedup ∅ l = l.toFinset := by
  have h := runDedup_union_of_nodup l ∅ hnd (by simp) (by simpa using hlen)
  simpa using h

/-- C1: the spec requires that after stop() no further reconnect attempt is
ever scheduled, but the closeFunction only calls ws.close() and keeps no
suppression flag, so the close event that follows stop() still schedules a
reconnect: on the trace stop-then-close the model records a reconnect due
reconnectDelay after the close, despite stopRequested being set.  Before
stop(), each close or error event indeed appends exactly one reconnect due
at event time plus the delay. -/
theorem C1_reconnect_scheduled_after_stop :
    ((runWs (reconnectDelayMs 5) [(0, WsEvent.stop), (0, WsEvent.close)]).stopRequested
        = true ∧
      (runWs (reconnectDelayMs 5)
          [(0, WsEvent.stop), (0, WsEvent.close)]).scheduledReconnects = [5000]) ∧
    (∀ (d now : Nat) (s : ConnState),
      (wsStep d s (now, WsEvent.close)).scheduledReconnects =
        s.scheduledReconnects ++ [now + d] ∧
      (wsStep d s (now, WsEvent.error)).scheduledReconnects =
        s.scheduledReconnects ++ [now + d] ∧
      wsStep d s (now, WsEvent.stop) = { s with stopRequested := true }) :=
  ⟨⟨rfl, rfl⟩, fun _ _ _ => ⟨rfl, rfl, rfl⟩⟩

/-- C2: the dedup window never exceeds 1000 entries after a step; an unseen
timestamp arriving at a full window clears it entirely before insertion,
leaving exactly that timestamp; and after 1001 frames with distinct
timestamps from an empty window the 1001st timestamp is accepted and the
window size equals 1. -/
theorem C2_dedup_window_invariant :
    (∀ (w : Finset Nat) (t : Nat), w.card ≤ maxMessages →
      ((dedupStep w t).2).card ≤ maxMessages) ∧
    (∀ (w : Finset Nat) (t : Nat), w.card = maxMessages → t ∉ w →
      (dedupStep w t).2 = {t}) ∧
    (∀ (l : List Nat) (t : Nat), l.Nodup → l.length = maxMessages → t ∉ l →
      (dedupStep (runDedup ∅ l) t).1 = true ∧
      runDedup ∅ (l ++ [t]) = {t} ∧
      (runDedup ∅ (l ++ [t])).card = 1) := by
  have hmax : maxMessages = 1000 := rfl
  refine ⟨?_, ?_, ?_⟩
  · intro w t hw
    by_cases h : t ∈ w
    · simpa [dedupStep_mem w t h] using hw
    · rw [dedupStep_not_mem w t h]
      by_cases hc : maxMessages ≤ w.card
      · rw [if_pos hc]
        show ({t} : Finset Nat).card ≤ maxMessages
        simp [hmax]
      · simp only [if_neg hc]
        have h1 := Finset.card_insert_le t w
        show (insert t w).card ≤ maxMessages
        omega
  · intro w t hw ht
    rw [dedupStep_not_mem w t ht]
    have hc : maxMessages ≤ w.card := hw.ge
    simp [hc]
  · intro l t hnd hlen hm
    have hw : runDedup ∅ l = l.toFinset :=
      runDedup_empty_toFinset l hnd (le_of_eq hlen)
    have hcard : (l.toFinset).card = maxMessages := by
      rw [List.toFinset_card_of_nodup hnd, hlen]
    have htm : t ∉ l.toFinset := by simpa using hm
    have hstep : dedupStep (runDedup ∅ l) t = (true, {t}) := by
      rw [hw, dedupStep_not_mem _ _ htm]
      simp [hcard.ge]
    have happ : runDedup ∅ (l ++ [t]) = (dedupStep (runDedup ∅ l) t).2 := by
      rw [runDedup_append]
      rfl
    refine ⟨by rw [hstep], ?_, ?_⟩
    · rw [happ, hstep]
    · rw [happ, hstep]
      simp

/-- Witness for C2: 1000 distinct timestamps (0..999) followed by the
unseen timestamp 1000. -/
theorem C2_dedup_window_invariant_witness :
    (List.range 1000).Nodup ∧ (List.range 1000).length = maxMessages ∧
      1000 ∉ List.range 1000 ∧
      ((dedupStep (runDedup ∅ (List.range 1000)) 1000).1 = true ∧
        runDedup ∅ (List.range 1000 ++ [1000]) = {1000} ∧
        (runDedup ∅ (List.range 1000 ++ [1000])).card = 1) :=
  ⟨List.nodup_range 1000, by simp [maxMessages], by simp,
    C2_dedup_window_invariant.2.2 (List.range 1000) 1000 (List.nodup_range 1000)
      (by simp [maxMessages]) (by simp)⟩

/-- C3: a timestamp absent from the envelope defaults to 0 for the dedup
check, and a second frame with the same timestamp processed right after the
first, while the window is below capacity, is discarded silently: the
window is unchanged and no action (in particular no downstream delivery)
occurs. -/
theorem C3_duplicate_timestamp_discarded :
    (∀ f : Frame, (f.envelope).bind (fun e => e.timestamp) = none →
      frameTimestamp f = 0) ∧
    (∀ (cfg : TriggerConfig) (w : Finset Nat) (m1 m2 : Frame)
        (a1 a2 : AckOutcome),
      frameTimestamp m2 = frameTimestamp m1 → w.card < maxMessages →
      onMessage cfg (onMessage cfg w (some m1) a1).1 (some m2) a2 =
        ((onMessage cfg w (some m1) a1).1, [])) := by
  constructor
  · intro f h
    simp [frameTimestamp, h]
  · intro cfg w m1 m2 a1 a2 hts _
    have hmem : frameTimestamp m2 ∈ (onMessage cfg w (some m1) a1).1 := by
      rw [hts]
      show frameTimestamp m1 ∈ (processParsed cfg w m1 a1).1
      rw [processParsed_fst]
      exact mem_dedupStep_snd w _
    exact processParsed_dup cfg _ m2 a2 hmem

/-- Witness for C3: the same incoming frame delivered twice in a row from
an empty window. -/
theorem C3_duplicate_timestamp_discarded_witness :
    frameTimestamp exampleIncomingFrame = frameTimestamp exampleIncomingFrame ∧
    (∅ : Finset Nat).card < maxMessages ∧
    onMessage exampleCfg
        (onMessage exampleCfg ∅ (some exampleIncomingFrame) AckOutcome.ok).1
        (some exampleIncomingFrame) AckOutcome.ok =
      ((onMessage exampleCfg ∅ (some exampleIncomingFrame) AckOutcome.ok).1, []) :=
  ⟨rfl, by decide,
    C3_duplicate_timestamp_discarded.2 exampleCfg ∅ exampleIncomingFrame
      exampleIncomingFrame AckOutcome.ok AckOutcome.ok rfl (by decide)⟩

/-- C4: a frame with a direct inbound payload is classified incoming; a
sync frame whose sourceUuid equals the embedded destinationUuid is
classified self-note and processed — and is delivered with that
classification when it has content passing the filters; a sync frame with
differing uuids is classified outgoing and never delivered downstream; a
frame with neither payload is discarded. -/
theorem C4_classification :
    (∀ m : Frame, hasDataMessage m = true →
      classify m = (MessageType.incoming, true)) ∧
    (∀ m : Frame, hasDataMessage m = false → hasSyncMessage m = true →
      syncSourceUuid m = syncDestinationUuid m →
      classify m = (MessageType.self_note, true)) ∧
    (∀ m : Frame, hasDataMessage m = false → hasSyncMessage m = true →
      syncSourceUuid m ≠ syncDestinationUuid m →
      classify m = (MessageType.outgoing, false) ∧
      ∀ (cfg : TriggerConfig) (w : Finset Nat) (a : AckOutcome)
        (pm : ProcessedMessage),
        Action.emit pm ∉ (onMessage cfg w (some m) a).2) ∧
    (∀ m : Frame, hasDataMessage m = false → hasSyncMessage m = false →
      classify m = (MessageType.unknown, false) ∧
      ∀ (cfg : TriggerConfig) (w : Finset Nat) (a : AckOutcome)
        (pm : ProcessedMessage),
        Action.emit pm ∉ (onMessage cfg w (some m) a).2) ∧
    (∀ (cfg : TriggerConfig) (w : Finset Nat) (m : Frame) (a : AckOutcome),
      hasDataMessage m = false → hasSyncMessage m = true →
      syncSourceUuid m = syncDestinationUuid m →
      frameTimestamp m ∉ w →
      isEmptyMessage (buildProcessedMessage m MessageType.self_note) = false →
      filteredOut cfg (buildProcessedMessage m MessageType.self_note) = false →
      Action.emit (buildProcessedMessage m MessageType.self_note) ∈
        (onMessage cfg w (some m) a).2 ∧
      (buildProcessedMessage m MessageType.self_note).messageType =
        MessageType.self_note) := by
  refine ⟨classify_incoming, classify_self_note, ?_, ?_, ?_⟩
  · intro m hd hs hu
    have hc := classify_outgoing m hd hs hu
    refine ⟨hc, ?_⟩
    intro cfg w a pm
    exact no_emit_of_not_processed cfg w m a pm (by rw [hc])
  · intro m hd hs
    have hc := classify_unknown m hd hs
    refine ⟨hc, ?_⟩
    intro cfg w a pm
    exact no_emit_of_not_processed cfg w m a pm (by rw [hc])
  · intro cfg w m a hd hs hu hfresh he hf
    have hc := classify_self_note m hd hs hu
    have h1 : (classify m).1 = MessageType.self_note := by rw [hc]
    refine ⟨?_, rfl⟩
    rw [emit_mem_onMessage]
    exact ⟨hfresh, by rw [hc], by rw [h1], he, hf⟩

/-- Witness for C4: the concrete self-note sync frame is delivered as a
self-note from an empty window. -/
theorem C4_classification_witness :
    hasDataMessage exampleSelfNoteFrame = false ∧
    hasSyncMessage exampleSelfNoteFrame = true ∧
    syncSourceUuid exampleSelfNoteFrame = syncDestinationUuid exampleSelfNoteFrame ∧
    frameTimestamp exampleSelfNoteFrame ∉ (∅ : Finset Nat) ∧
    (Action.emit (buildProcessedMessage exampleSelfNoteFrame MessageType.self_note) ∈
        (onMessage exampleCfg ∅ (some exampleSelfNoteFrame) AckOutcome.ok).2 ∧
      (buildProcessedMessage exampleSelfNoteFrame MessageType.self_note).messageType =
        MessageType.self_note) :=
  ⟨rfl, rfl, rfl, by decide,
    C4_classification.2.2.2.2 exampleCfg ∅ exampleSelfNoteFrame AckOutcome.ok
      rfl rfl rfl (by decide) (by decide) (by decide)⟩

/-- C5 counterexample: on a concrete incoming frame with markAsRead
enabled, the handler issues exactly one acknowledgement POST, and its
structured body is keyed receipt_type (snake case), not receiptType as the
claim states: the body differs from the spec-claimed body. -/
theorem C5_counterexample :
    (onMessage exampleCfg ∅ (some exampleIncomingFrame) AckOutcome.ok).2 =
      [Action.emit (buildProcessedMessage exampleIncomingFrame MessageType.incoming),
       Action.sendAck (readReceiptRequest exampleCfg "u-1" 100)] ∧
    (readReceiptRequest exampleCfg "u-1" 100).body ≠
      specClaimedReceiptBody "u-1" 100 :=
  ⟨rfl, by decide⟩

/-- C5 amended: every acknowledgement the handler issues is a POST to
apiUrl/v1/receipts/phoneNumber whose structured body is exactly
receipt_type "read", recipient = the sender uuid of the frame, and
timestamp = the frame timestamp, with the bearer token header attached
exactly when the token is configured. -/
theorem C5_amended_ack_request (cfg : TriggerConfig) (w : Finset Nat)
    (raw : Option Frame) (a : AckOutcome) (req : HttpRequest)
    (h : Action.sendAck req ∈ (onMessage cfg w raw a).2) :
    ∃ m, raw = some m ∧
      req = readReceiptRequest cfg
        (buildProcessedMessage m (classify m).1).sourceUuid (frameTimestamp m) ∧
      req.url = cfg.apiUrl ++ "/v1/receipts/" ++ cfg.phoneNumber ∧
      req.body =
        [("receipt_type", Jval.str "read"),
         ("recipient",
          Jval.str (buildProcessedMessage m (classify m).1).sourceUuid),
         ("timestamp", Jval.num (frameTimestamp m))] ∧
      (cfg.apiToken ≠ "" →
        ("Authorization", "Bearer " ++ cfg.apiToken) ∈ req.headers) ∧
      (cfg.apiToken = "" →
        req.headers = [("Content-Type", "application/json")]) := by
  cases raw with
  | none =>
    exfalso
    have : Action.sendAck req ∈ [Action.log LogLevel.error] := h
    simp at this
  | some m =>
    refine ⟨m, rfl, ?_⟩
    have h2 : Action.sendAck req ∈ (processParsed cfg w m a).2 := h
    rw [processParsed_snd] at h2
    by_cases hd : frameTimestamp m ∈ w
    · rw [if_pos hd] at h2
      exact absurd h2 (List.not_mem_nil _)
    · rw [if_neg hd] at h2
      have hreq := sendAck_mem_handlerActions cfg m a req h2
      have hts : (buildProcessedMessage m (classify m).1).timestamp =
          frameTimestamp m := rfl
      rw [hts] at hreq
      refine ⟨hreq, by rw [hreq]; rfl, by rw [hreq]; rfl, ?_, ?_⟩
      · intro hne
        have ht : (cfg.apiToken != "") = true := by
          simpa using hne
        rw [hreq]
        simp [readReceiptRequest, ht]
      · intro heq
        rw [hreq]
        simp [readReceiptRequest, heq]

/-- Witness for C5 amended: the single ack of the concrete run satisfies
the amended description. -/
theorem C5_amended_ack_request_witness :
    Action.sendAck (readReceiptRequest exampleCfg "u-1" 100) ∈
      (onMessage exampleCfg ∅ (some exampleIncomingFrame) AckOutcome.ok).2 ∧
    ∃ m, some exampleIncomingFrame = some m ∧
      readReceiptRequest exampleCfg "u-1" 100 = readReceiptRequest exampleCfg
        (buildProcessedMessage m (classify m).1).sourceUuid (frameTimestamp m) ∧
      (readReceiptRequest exampleCfg "u-1" 100).url =
        exampleCfg.apiUrl ++ "/v1/receipts/" ++ exampleCfg.phoneNumber ∧
      (readReceiptRequest exampleCfg "u-1" 100).body =
        [("receipt_type", Jval.str "read"),
         ("recipient",
          Jval.str (buildProcessedMessage m (classify m).1).sourceUuid),
         ("timestamp", Jval.num (frameTimestamp m))] ∧
      (exampleCfg.apiToken ≠ "" →
        ("Authorization", "Bearer " ++ exampleCfg.apiToken) ∈
          (readReceiptRequest exampleCfg "u-1" 100).headers) ∧
      (exampleCfg.apiToken = "" →
        (readReceiptRequest exampleCfg "u-1" 100).headers =
          [("Content-Type", "application/json")]) :=
  ⟨by decide,
    C5_amended_ack_request exampleCfg ∅ (some exampleIncomingFrame) AckOutcome.ok
      (readReceiptRequest exampleCfg "u-1" 100) (by decide)⟩

/-- C6: on a fresh, processable frame a downstream delivery happens exactly
when the built event has some content and no enabled filter flag matches;
an all-empty event is never delivered whatever the flags; and with
ignoreAttachments set, an event with one attachment and no text is
discarded. -/
theorem C6_delivery_iff_content_and_filters :
    (∀ (cfg : TriggerConfig) (w : Finset Nat) (m : Frame) (a : AckOutcome),
      frameTimestamp m ∉ w → (classify m).2 = true →
      ((∃ pm, Action.emit pm ∈ (onMessage cfg w (some m) a).2) ↔
        (isEmptyMessage (buildProcessedMessage m (classify m).1) = false ∧
         filteredOut cfg (buildProcessedMessage m (classify m).1) = false))) ∧
    (∀ (cfg : TriggerConfig) (w : Finset Nat) (m : Frame) (a : AckOutcome)
        (pm : ProcessedMessage),
      isEmptyMessage (buildProcessedMessage m (classify m).1) = true →
      Action.emit pm ∉ (onMessage cfg w (some m) a).2) ∧
    (∀ (cfg : TriggerConfig) (w : Finset Nat) (m : Frame) (a : AckOutcome)
        (pm : ProcessedMessage),
      cfg.ignoreAttachments = true →
      (buildProcessedMessage m (classify m).1).messageText = "" →
      (buildProcessedMessage m (classify m).1).attachments.length = 1 →
      Action.emit pm ∉ (onMessage cfg w (some m) a).2) := by
  refine ⟨?_, ?_, ?_⟩
  · intro cfg w m a hfresh hsp
    constructor
    · rintro ⟨pm, hpm⟩
      rw [emit_mem_onMessage] at hpm
      obtain ⟨_, _, rfl, he, hf⟩ := hpm
      exact ⟨he, hf⟩
    · rintro ⟨he, hf⟩
      exact ⟨buildProcessedMessage m (classify m).1,
        (emit_mem_onMessage cfg w m a _).mpr ⟨hfresh, hsp, rfl, he, hf⟩⟩
  · intro cfg w m a pm he
    rw [emit_mem_onMessage]
    rintro ⟨_, _, rfl, he2, _⟩
    rw [he] at he2
    exact Bool.false_ne_true he2.symm
  · intro cfg w m a pm hflag htext hlen
    rw [emit_mem_onMessage]
    rintro ⟨_, _, rfl, _, hf⟩
    have : filteredOut cfg (buildProcessedMessage m (classify m).1) = true := by
      simp [filteredOut, hflag, hlen]
    rw [this] at hf
    exact Bool.false_ne_true hf.symm

/-- Witness for C6: the concrete incoming frame with text is delivered,
matching the iff at a fresh window. -/
theorem C6_delivery_iff_content_and_filters_witness :
    frameTimestamp exampleIncomingFrame ∉ (∅ : Finset Nat) ∧
    (classify exampleIncomingFrame).2 = true ∧
    ((∃ pm, Action.emit pm ∈
        (onMessage exampleCfg ∅ (some exampleIncomingFrame) AckOutcome.ok).2) ↔
      (isEmptyMessage
          (buildProcessedMessage exampleIncomingFrame
            (classify exampleIncomingFrame).1) = false ∧
        filteredOut exampleCfg
          (buildProcessedMessage exampleIncomingFrame
            (classify exampleIncomingFrame).1) = false)) :=
  ⟨by decide, rfl,
    C6_delivery_iff_content_and_filters.1 exampleCfg ∅ exampleIncomingFrame
      AckOutcome.ok (by decide) rfl⟩

/-- C7: whenever the handler issues an acknowledgement, the action list
starts with the downstream emit, so the ack comes only after delivery; the
resulting window and the delivered events are identical for every ack
outcome, so an ack failure never prevents or undoes delivery and never
touches connection state; and both failure modes of the read-receipt call
end in a warn or error log instead of propagating — the rejected fetch is
converted by the catch block into an error log. -/
theorem C7_ack_after_delivery_and_isolated :
    (∀ (cfg : TriggerConfig) (w : Finset Nat) (raw : Option Frame)
        (a : AckOutcome) (req : HttpRequest),
      Action.sendAck req ∈ (onMessage cfg w raw a).2 →
      ∃ pm rest, (onMessage cfg w raw a).2 = Action.emit pm :: rest) ∧
    (∀ (cfg : TriggerConfig) (w : Finset Nat) (raw : Option Frame)
        (a1 a2 : AckOutcome),
      (onMessage cfg w raw a1).1 = (onMessage cfg w raw a2).1) ∧
    (∀ (cfg : TriggerConfig) (w : Finset Nat) (raw : Option Frame)
        (a1 a2 : AckOutcome) (pm : ProcessedMessage),
      Action.emit pm ∈ (onMessage cfg w raw a1).2 ↔
        Action.emit pm ∈ (onMessage cfg w raw a2).2) ∧
    (∀ (cfg : TriggerConfig) (sn su : String) (ts : Nat),
      markMessageAsRead cfg sn su ts AckOutcome.httpError =
        [Action.sendAck (readReceiptRequest cfg su ts), Action.log LogLevel.warn] ∧
      markMessageAsRead cfg sn su ts AckOutcome.thrown =
        [Action.sendAck (readReceiptRequest cfg su ts), Action.log LogLevel.error]) := by
  refine ⟨?_, ?_, ?_, fun cfg sn su ts => ⟨rfl, rfl⟩⟩
  · intro cfg w raw a req h
    cases raw with
    | none =>
      exfalso
      have h2 : Action.sendAck req ∈ [Action.log LogLevel.error] := h
      simp at h2
    | some m =>
      have h2 : Action.sendAck req ∈ (processParsed cfg w m a).2 := h
      rw [processParsed_snd] at h2
      by_cases hd : frameTimestamp m ∈ w
      · rw [if_pos hd] at h2
        exact absurd h2 (List.not_mem_nil _)
      · rw [if_neg hd] at h2
        obtain ⟨pm, rest, hshape⟩ := handlerActions_sendAck_shape cfg m a req h2
        refine ⟨pm, rest, ?_⟩
        show (processParsed cfg w m a).2 = _
        rw [processParsed_snd, if_neg hd, hshape]
  · intro cfg w raw a1 a2
    cases raw with
    | none => rfl
    | some m =>
      show (processParsed cfg w m a1).1 = (processParsed cfg w m a2).1
      rw [processParsed_fst, processParsed_fst]
  · intro cfg w raw a1 a2 pm
    cases raw with
    | none => exact Iff.rfl
    | some m => rw [emit_mem_onMessage, emit_mem_onMessage]

/-- Witness for C7: the concrete incoming run issues an ack and its action
list starts with the emit. -/
theorem C7_ack_after_delivery_and_isolated_witness :
    Action.sendAck (readReceiptRequest exampleCfg "u-1" 100) ∈
      (onMessage exampleCfg ∅ (some exampleIncomingFrame) AckOutcome.ok).2 ∧
    ∃ pm rest,
      (onMessage exampleCfg ∅ (some exampleIncomingFrame) AckOutcome.ok).2 =
        Action.emit pm :: rest :=
  ⟨by decide,
    C7_ack_after_delivery_and_isolated.1 exampleCfg ∅ (some exampleIncomingFrame)
      AckOutcome.ok (readReceiptRequest exampleCfg "u-1" 100) (by decide)⟩

/-- C8: a frame that fails to parse is handled by the catch block: the
handler returns normally with the dedup window unchanged and a single
error log — nothing is delivered, no ack is issued, and the connection
state is untouched. -/
theorem C8_parse_failure_isolated (cfg : TriggerConfig) (w : Finset Nat)
    (a : AckOutcome) :
    onMessage cfg w none a = (w, [Action.log LogLevel.error]) := rfl

/-- C9: a fresh timestamp is inserted into the window before
classification, emptiness and filter checks, so even a frame that is then
discarded consumes its timestamp, and a later frame reusing that timestamp
is silently discarded although the first was never delivered. -/
theorem C9_timestamp_consumed_before_checks :
    (∀ (cfg : TriggerConfig) (w : Finset Nat) (m : Frame) (a : AckOutcome),
      frameTimestamp m ∉ w →
      frameTimestamp m ∈ (onMessage cfg w (some m) a).1) ∧
    (∀ (cfg : TriggerConfig) (w : Finset Nat) (m1 m2 : Frame)
        (a1 a2 : AckOutcome),
      frameTimestamp m1 ∉ w →
      frameTimestamp m2 = frameTimestamp m1 →
      (∀ pm, Action.emit pm ∉ (onMessage cfg w (some m1) a1).2) →
      onMessage cfg (onMessage cfg w (some m1) a1).1 (some m2) a2 =
        ((onMessage cfg w (some m1) a1).1, [])) := by
  constructor
  · intro cfg w m a _
    show frameTimestamp m ∈ (processParsed cfg w m a).1
    rw [processParsed_fst]
    exact mem_dedupStep_snd w _
  · intro cfg w m1 m2 a1 a2 _ hts _
    have hmem : frameTimestamp m2 ∈ (onMessage cfg w (some m1) a1).1 := by
      rw [hts]
      show frameTimestamp m1 ∈ (processParsed cfg w m1 a1).1
      rw [processParsed_fst]
      exact mem_dedupStep_snd w _
    exact processParsed_dup cfg _ m2 a2 hmem

/-- Witness for C9: an outgoing sync frame (never delivered) still consumes
timestamp 100, and a later incoming frame with timestamp 100 is then
silently discarded. -/
theorem C9_timestamp_consumed_before_checks_witness :
    frameTimestamp exampleOutgoingFrame ∉ (∅ : Finset Nat) ∧
    frameTimestamp exampleIncomingFrame = frameTimestamp exampleOutgoingFrame ∧
    (∀ pm, Action.emit pm ∉
      (onMessage exampleCfg ∅ (some exampleOutgoingFrame) AckOutcome.ok).2) ∧
    onMessage exampleCfg
        (onMessage exampleCfg ∅ (some exampleOutgoingFrame) AckOutcome.ok).1
        (some exampleIncomingFrame) AckOutcome.ok =
      ((onMessage exampleCfg ∅ (some exampleOutgoingFrame) AckOutcome.ok).1, []) :=
  ⟨by decide, rfl,
    fun pm => by
      have h : (onMessage exampleCfg ∅ (some exampleOutgoingFrame)
          AckOutcome.ok).2 = [] := rfl
      rw [h]
      exact List.not_mem_nil _,
    C9_timestamp_consumed_before_checks.2 exampleCfg ∅ exampleOutgoingFrame
      exampleIncomingFrame AckOutcome.ok AckOutcome.ok (by decide) rfl
      (fun pm => by
        have h : (onMessage exampleCfg ∅ (some exampleOutgoingFrame)
            AckOutcome.ok).2 = [] := rfl
        rw [h]
        exact List.not_mem_nil _)⟩

/-- C10: in a sync frame where both the envelope sourceUuid and the
embedded sentMessage destinationUuid are absent, the strict equality of the
two undefined values holds, so the frame is classified self-note and
processed rather than discarded as outgoing or unclassifiable. -/
theorem C10_absent_uuids_classified_self_note (m : Frame)
    (hd : hasDataMessage m = false) (hs : hasSyncMessage m = true)
    (hsrc : syncSourceUuid m = none) (hdst : syncDestinationUuid m = none) :
    classify m = (MessageType.self_note, true) := by
  apply classify_self_note m hd hs
  rw [hsrc, hdst]

/-- Witness for C10: the concrete sync frame with both uuids absent is
classified self-note. -/
theorem C10_absent_uuids_classified_self_note_witness :
    hasDataMessage exampleNoUuidSyncFrame = false ∧
    hasSyncMessage exampleNoUuidSyncFrame = true ∧
    syncSourceUuid exampleNoUuidSyncFrame = none ∧
    syncDestinationUuid exampleNoUuidSyncFrame = none ∧
    classify exampleNoUuidSyncFrame = (MessageType.self_note, true) :=
  ⟨rfl, rfl, rfl, rfl,
    C10_absent_uuids_classified_self_note exampleNoUuidSyncFrame rfl rfl rfl rfl⟩

end Signal
